import Mathlib

/-!
# openbao-pki-controller: shallow embedding and verification

A shallow embedding of the core of the `openbao-pki-controller` repository
(`src/ca_certificate.rs`, `src/utils.rs`, `src/intermediate_ca.rs`,
`src/controller.rs`, `src/error.rs`) together with theorems settling the
specification claims about it.

Modelling conventions:
* X.509/DER/PEM parsing is out of scope of the embedding; a PEM input is
  modelled as an inductive that either is malformed (parse fails) or carries
  the structured certificate data the source extracts from it
  (`x509_cert::Certificate::from_pem`).  Likewise for SPKI public-key bytes
  (`SubjectPublicKeyInfoOwned::from_der`).
* Times are modelled as `Int` seconds; `SystemTime::now()` / `Utc::now()`
  becomes an explicit `now` parameter threaded from the caller.
* The 8 random serial bytes (`rand::random::<[u8; 8]>()` interpreted as a
  `u64`) become an explicit `serialRand : Nat` parameter reduced mod `2 ^ 64`.
* Fallible Rust code returns `Except Error`; a Rust panic (`unwrap()` on
  `None`, `todo!()`) is modelled by the `RunResult.panics` constructor.
* External effects (rcgen key generation, the OpenBao `sign_intermediate`
  call, the Kubernetes `patch_status` call) are modelled by an environment
  record fixing the outcome of each effectful step.
-/

namespace OpenbaoPki

/-- Structured data of a parsed X.509 certificate: the fields of
`x509_cert::Certificate` that the source reads (subject, issuer, serial,
validity) plus the embedded subject public key. -/
structure CertData where
  subject : String
  issuer : String
  serial : Nat
  notBefore : Int
  notAfter : Int
  publicKey : Nat
  deriving DecidableEq

/-- A PEM-encoded certificate input: parsing (`Certificate::from_pem`) either
fails or yields the structured certificate data. -/
inductive Pem where
  | malformed
  | cert (c : CertData)
  deriving DecidableEq

/-- Model of `x509_cert::Certificate::from_pem`. -/
def parseCertPem : Pem → Option CertData
  | .malformed => none
  | .cert c => some c

/-- Caller-supplied SPKI bytes (`spec.pkix_public_key`): parsing
(`SubjectPublicKeyInfoOwned::from_der`) either fails or yields a public key,
identified by a `Nat`. -/
inductive SpkiInput where
  | malformed
  | valid (keyId : Nat)
  deriving DecidableEq

/-- Model of `SubjectPublicKeyInfoOwned::from_der`. -/
def parseSpki : SpkiInput → Option Nat
  | .malformed => none
  | .valid k => some k

/-- Key algorithm of an rcgen `KeyPair`.  `SigningKey::<NistP256>::from_pkcs8_der`
on the serialized key succeeds exactly for P-256 material. -/
inductive KeyAlg where
  | p256
  | other
  deriving DecidableEq

/-- Model of rcgen `KeyPair`: its algorithm plus an identifier for the key
material. -/
structure KeyPair where
  alg : KeyAlg
  keyId : Nat
  deriving DecidableEq

/-- `src/ca_certificate.rs`: the intermediate CA's material. -/
structure CACertificate where
  certificate_pem : Pem
  key_pair : KeyPair
  deriving DecidableEq

/-- `src/error.rs`: the controller's error enum.  Note the enum has no
`UnsupportedKeyType` variant; key-conversion failures are `Signing` values. -/
inductive Error where
  | ConfigMapCreationFailed
  | MissingObjectKey (k : String)
  | VaultRequestFailed
  | CSRCreate
  | Der
  | Signing (msg : String)
  deriving DecidableEq

/-- The Rust variant name of an `Error` value. -/
def errorName : Error → String
  | .ConfigMapCreationFailed => "ConfigMapCreationFailed"
  | .MissingObjectKey _ => "MissingObjectKey"
  | .VaultRequestFailed => "VaultRequestFailed"
  | .CSRCreate => "CSRCreate"
  | .Der => "Der"
  | .Signing _ => "Signing"

/-- `CACertificate::is_expired` (`src/ca_certificate.rs` lines 22-31): a PEM
that fails to parse is expired; otherwise compare `not_after` with now
(strictly: `not_after < now`). -/
def CACertificate.is_expired (self : CACertificate) (now : Int) : Bool :=
  match parseCertPem self.certificate_pem with
  | none => true
  | some cert => decide (cert.notAfter < now)

/-- `sign_certificate` (`src/utils.rs` lines 21-81): parse the requester SPKI,
parse the CA certificate and take its subject as issuer, format the subject
CN (empty common name falls back to the literal `CN=pod-certificate`), draw a
64-bit random serial, set a 24-hour validity from now, convert the CA key to
a P-256 ECDSA signing key (any other key material fails with
`Error::Signing("Key conversion failed: ...")`), and build the leaf
certificate.  `Name::from_str` on the formatted CN is modelled as succeeding
(its `unwrap_or_else` fallback to `CN=pod-certificate` is unreachable for the
names this controller builds). -/
def sign_certificate (pubkey : SpkiInput) (ca_cert_pem : Pem) (ca_keypair : KeyPair)
    (cn : String) (now : Int) (serialRand : Nat) : Except Error CertData :=
  match parseSpki pubkey with
  | none => .error .Der
  | some keyId =>
    match parseCertPem ca_cert_pem with
    | none => .error .Der
    | some ca_cert =>
      let issuer_name := ca_cert.subject
      let cn_formatted := if cn = "" then "CN=pod-certificate" else "CN=" ++ cn
      let serial_number := serialRand % 2 ^ 64
      match ca_keypair.alg with
      | .other => .error (.Signing "Key conversion failed")
      | .p256 =>
        .ok { subject := cn_formatted, issuer := issuer_name,
              serial := serial_number, notBefore := now, notAfter := now + 86400,
              publicKey := keyId }

/-! ## Kubernetes object model (the fields the controller reads and writes) -/

/-- `metadata` fields read by the controller. `namespace_` models Rust's
`metadata.namespace` (a Lean keyword). -/
structure ObjectMeta where
  name : Option String
  namespace_ : Option String
  deriving DecidableEq

/-- `k8s_openapi ... Condition`, the fields the controller writes. -/
structure Condition where
  last_transition_time : Int
  message : String
  observed_generation : Option Int
  reason : String
  status : String
  type_ : String
  deriving DecidableEq

/-- `PodCertificateRequestSpec` fields read by the controller.
`max_expiration_seconds` is `Option<i32>` in the source. -/
structure PodCertificateRequestSpec where
  pod_uid : String
  pod_name : String
  pkix_public_key : SpkiInput
  max_expiration_seconds : Option Int
  deriving DecidableEq

/-- `PodCertificateRequestStatus` fields read and written by the controller. -/
structure PodCertificateRequestStatus where
  certificate_chain : Option String
  not_before : Option Int
  not_after : Option Int
  begin_refresh_at : Option Int
  conditions : Option (List Condition)
  deriving DecidableEq

/-- The all-`None` status (`Default::default()` in the source). -/
def emptyStatus : PodCertificateRequestStatus :=
  { certificate_chain := none, not_before := none, not_after := none,
    begin_refresh_at := none, conditions := none }

/-- A `PodCertificateRequest` object. -/
structure PodCertificateRequest where
  metadata : ObjectMeta
  spec : PodCertificateRequestSpec
  status : Option PodCertificateRequestStatus
  deriving DecidableEq

/-! ## Intermediate CA manager (`src/intermediate_ca.rs`), sequential model -/

/-- Outcome of running a piece of Rust code: a value, an `Err` return, or a
panic (`unwrap()` on `None`, `todo!()`). -/
inductive RunResult (α : Type) where
  | ok (a : α)
  | err (e : Error)
  | panics (msg : String)
  deriving DecidableEq

/-- Panic message of `Option::unwrap` on `None`. -/
def unwrapNoneMsg : String := "called Option::unwrap() on a None value"

/-- Panic message of `todo!()`. -/
def todoMsg : String := "not yet implemented"

deriving instance DecidableEq for Except

/-- Environment fixing the outcome of each effectful step of
`issue_ca_certificate`: rcgen key generation, `CertificateParams::new`,
`serialize_request`, `csr.pem()`, and the OpenBao `sign_intermediate` call
(whose successful response carries the new CA certificate PEM).
`KeyPair::generate()` defaults to ECDSA P-256, so a generated key pair has
`alg = p256`; the field is kept general. -/
structure IssueEnv where
  keypair : Except Unit KeyPair
  paramsOk : Bool
  serializeOk : Bool
  pemOk : Bool
  vaultResponse : Except Unit Pem
  deriving DecidableEq

/-- Result of `issue_ca_certificate`: the `Result<(), Error>` return value,
the CA state afterwards, and whether the upstream `sign_intermediate` backend
call was actually performed. -/
structure IssueResult where
  res : Except Error Unit
  ca : Option CACertificate
  backendCalled : Bool
  deriving DecidableEq

/-- `IntermediateCA::issue_ca_certificate` (`src/intermediate_ca.rs` lines
27-81): generate a key pair, build and encode a CSR (each failure maps to
`CSRCreate`), submit it to the backend (`VaultRequestFailed` on failure) and
only then replace the CA state with
`CACertificate { certificate_pem: response.certificate, key_pair }`. -/
def issue_ca_certificate (env : IssueEnv) (ca0 : Option CACertificate) : IssueResult :=
  match env.keypair with
  | .error _ => { res := .error .CSRCreate, ca := ca0, backendCalled := false }
  | .ok ca_key_pair =>
    if !env.paramsOk then { res := .error .CSRCreate, ca := ca0, backendCalled := false }
    else if !env.serializeOk then { res := .error .CSRCreate, ca := ca0, backendCalled := false }
    else if !env.pemOk then { res := .error .CSRCreate, ca := ca0, backendCalled := false }
    else
      match env.vaultResponse with
      | .error _ => { res := .error .VaultRequestFailed, ca := ca0, backendCalled := true }
      | .ok certPem =>
        { res := .ok (),
          ca := some { certificate_pem := certPem, key_pair := ca_key_pair },
          backendCalled := true }

/-- The common name the CA manager builds for a leaf
(`src/intermediate_ca.rs` lines 110-114):
`format!("system:pod:{}:{}", namespace.unwrap_or("default"), pod_name)`. -/
def mkCommonName (request : PodCertificateRequest) : String :=
  "system:pod:" ++ (request.metadata.namespace_.getD "default") ++ ":" ++
    request.spec.pod_name

/-- Result of `IntermediateCA::sign_certificate`: the returned certificate
(or error/panic), the CA state afterwards, whether the upstream backend call
happened, and the common name passed to the leaf signer (if reached). -/
structure CASignResult where
  result : RunResult CertData
  caAfter : Option CACertificate
  backendCalled : Bool
  cnUsed : Option String
  deriving DecidableEq

/-- The tail of `IntermediateCA::sign_certificate` after the bootstrap check
(`src/intermediate_ca.rs` lines 91-117): the expiry check (`todo!()` when the
current CA is expired), the `unwrap()` read of the CA state, the common-name
construction, and the delegation to `sign_certificate`. -/
def signWithState (ca1 : Option CACertificate) (request : PodCertificateRequest)
    (now : Int) (serialRand : Nat) (backendCalled : Bool) : CASignResult :=
  match ca1 with
  | some ca_cert =>
    if ca_cert.is_expired now then
      { result := .panics todoMsg, caAfter := ca1, backendCalled := backendCalled,
        cnUsed := none }
    else
      let cn := mkCommonName request
      { result :=
          match sign_certificate request.spec.pkix_public_key ca_cert.certificate_pem
              ca_cert.key_pair cn now serialRand with
          | .error e => .err e
          | .ok c => .ok c,
        caAfter := ca1, backendCalled := backendCalled, cnUsed := some cn }
  | none =>
    { result := .panics unwrapNoneMsg, caAfter := ca1, backendCalled := backendCalled,
      cnUsed := none }

/-- `IntermediateCA::sign_certificate` (`src/intermediate_ca.rs` lines 83-118),
sequential (single-caller) semantics: if the CA state is absent, run
`issue_ca_certificate` (propagating its error); then run the expiry check and
leaf signing on the resulting state. -/
def IntermediateCA.sign_certificate (ca0 : Option CACertificate) (env : IssueEnv)
    (request : PodCertificateRequest) (now : Int) (serialRand : Nat) : CASignResult :=
  match ca0 with
  | none =>
    let ir := issue_ca_certificate env none
    match ir.res with
    | .error e =>
      { result := .err e, caAfter := ir.ca, backendCalled := ir.backendCalled,
        cnUsed := none }
    | .ok _ => signWithState ir.ca request now serialRand ir.backendCalled
  | some _ => signWithState ca0 request now serialRand false

/-! ## Reconciler (`src/controller.rs`) -/

/-- The already-fulfilled check (`src/controller.rs` lines 38-44):
`if let Some(status) = &pcr.status && status.certificate_chain.is_some()`.
Note the source tests presence (`is_some`), not non-emptiness. -/
def alreadyIssued (pcr : PodCertificateRequest) : Bool :=
  match pcr.status with
  | some status => status.certificate_chain.isSome
  | none => false

/-- Rust `x as u64` for an `i32` value `x`: sign-extend and reinterpret,
i.e. reduce mod `2 ^ 64`. -/
def i32_as_u64 (x : Int) : Int := x % 2 ^ 64

/-- chrono's `impl Add<std::time::Duration> for DateTime` first converts the
std duration with `TimeDelta::from_std`, which is bounded by `TimeDelta::MAX`
(`i64::MAX` milliseconds): a duration of more than
`i64::MAX / 1000 = 9223372036854775` whole seconds fails the conversion and
the `expect` in the `Add` impl panics. -/
def chronoMaxSeconds : Int := 9223372036854775

/-- Panic message of chrono's `Add<std::time::Duration>` when
`TimeDelta::from_std` overflows. -/
def durationOverflowMsg : String := "Overflow during duration conversion"

/-- Model of `cert.to_pem(LineEnding::LF)`: an executable stand-in for
DER + base64 encoding (the claims only need that a string is produced). -/
def encode_pem (c : CertData) : String :=
  "-----BEGIN CERTIFICATE-----\n" ++ toString c.serial ++
    "\n-----END CERTIFICATE-----\n"

/-- The condition record the reconciler writes (`src/controller.rs` lines
87-94). -/
def issuedCondition (now : Int) : Condition :=
  { last_transition_time := now,
    message := "Certificate issued successfully",
    observed_generation := none,
    reason := "CertificateIssuedSuccessfully",
    status := "True",
    type_ := "Issued" }

/-- `pcr.status.to_owned().unwrap_or_default()`. -/
def statusBase (pcr : PodCertificateRequest) : PodCertificateRequestStatus :=
  match pcr.status with
  | some st => st
  | none => emptyStatus

/-- The status object the reconciler builds on successful signing
(`src/controller.rs` lines 65-95): the base status with
`certificate_chain`, `not_before`, `not_after`,
`begin_refresh_at = now + (max_expiration_seconds as u64) - 3600` and a
conditions list that is overwritten with the single `Issued` record. -/
def buildStatus (pcr : PodCertificateRequest) (cert : CertData) (now maxExp : Int) :
    PodCertificateRequestStatus :=
  { statusBase pcr with
    certificate_chain := some (encode_pem cert),
    not_before := some cert.notBefore,
    not_after := some cert.notAfter,
    begin_refresh_at := some (now + i32_as_u64 maxExp - 3600),
    conditions := some [issuedCondition now] }

/-- Reconciler environment: the CA manager's effect environment plus the
outcome of the Kubernetes `patch_status` call. -/
structure ReconcileEnv where
  issueEnv : IssueEnv
  patchOk : Bool
  deriving DecidableEq

/-- The part of `reconcile` after a successful signing call
(`src/controller.rs` lines 60-123): `max_expiration_seconds.unwrap()`
(panics when the field is absent), the `renew_at` computation
`Utc::now() + Duration::from_secs(max as u64) - Duration::from_secs(3600)`
(whose `+` panics when the `i32 as u64` cast exceeds the
`TimeDelta::from_std` bound — the case for every negative value), status
construction, the `.metadata.namespace` check (`MissingObjectKey` when
absent, before any patch is attempted), `metadata.name.unwrap()`, and the
`patch_status` call (`ConfigMapCreationFailed` on failure).  Returns
(result, patch attempted, patched status).  chrono's second `expect`
(`checked_add_signed`, the representable `DateTime` range) only triggers for
a wall clock `now` beyond year 262142 and is not modelled; nor is the
in-bounds `- 3600 s` subtraction's. -/
def reconcileAfterSign (pcr : PodCertificateRequest) (env : ReconcileEnv)
    (now : Int) (cert : CertData) :
    RunResult Nat × Bool × Option PodCertificateRequestStatus :=
  match pcr.spec.max_expiration_seconds with
  | none => (.panics unwrapNoneMsg, false, none)
  | some maxExp =>
    if chronoMaxSeconds < i32_as_u64 maxExp then (.panics durationOverflowMsg, false, none)
    else
    match pcr.metadata.namespace_ with
    | none => (.err (.MissingObjectKey ".metadata.namespace"), false, none)
    | some _ =>
      match pcr.metadata.name with
      | none => (.panics unwrapNoneMsg, false, none)
      | some _ =>
        if env.patchOk then (.ok 300, true, some (buildStatus pcr cert now maxExp))
        else (.err .ConfigMapCreationFailed, true, none)

/-- Observable outcome of one `reconcile` invocation: the returned action
(`ok requeueSeconds`), error or panic; the CA state afterwards; whether the
CA manager was invoked; whether the upstream backend call happened; the
common name used for the leaf (if the leaf signer was reached); whether a
status patch was attempted; and the status persisted by a successful patch. -/
structure ReconcileOutcome where
  result : RunResult Nat
  caAfter : Option CACertificate
  caManagerCalled : Bool
  backendCalled : Bool
  cnUsed : Option String
  patchAttempted : Bool
  patchedStatus : Option PodCertificateRequestStatus
  deriving DecidableEq

/-- The signing path of `reconcile` (`src/controller.rs` lines 46-123):
invoke the CA manager, propagate its error (after logging the cause chain) or
panic, then run `reconcileAfterSign`. -/
def reconcileSign (pcr : PodCertificateRequest) (ca0 : Option CACertificate)
    (env : ReconcileEnv) (now : Int) (serialRand : Nat) : ReconcileOutcome :=
  let s := IntermediateCA.sign_certificate ca0 env.issueEnv pcr now serialRand
  let tail : RunResult Nat × Bool × Option PodCertificateRequestStatus :=
    match s.result with
    | .err e => (.err e, false, none)
    | .panics m => (.panics m, false, none)
    | .ok cert => reconcileAfterSign pcr env now cert
  { result := tail.1, caAfter := s.caAfter, caManagerCalled := true,
    backendCalled := s.backendCalled, cnUsed := s.cnUsed,
    patchAttempted := tail.2.1, patchedStatus := tail.2.2 }

/-- `reconcile` (`src/controller.rs` lines 31-124): the already-fulfilled
check short-circuits with a 300 s requeue and no other effect; otherwise the
signing path runs.  A successful reconciliation also requeues in 300 s. -/
def reconcile (pcr : PodCertificateRequest) (ca0 : Option CACertificate)
    (env : ReconcileEnv) (now : Int) (serialRand : Nat) : ReconcileOutcome :=
  if alreadyIssued pcr then
    { result := .ok 300, caAfter := ca0, caManagerCalled := false,
      backendCalled := false, cnUsed := none, patchAttempted := false,
      patchedStatus := none }
  else
    reconcileSign pcr ca0 env now serialRand

/-! ## Concurrent first-callers model (`src/intermediate_ca.rs` lines 83-102)

`IntermediateCA::sign_certificate` holds the `RwLock` read guard only for the
duration of the `is_none()` check; `issue_ca_certificate` then runs with no
lock held and acquires the write lock only to install its result.  We model a
caller as three atomic steps:

* `check` — `self.ca.read().await.is_none()` (lines 88-91);
* `issue` — the whole of `issue_ca_certificate`, i.e. the backend
  `sign_intermediate` call followed by the write-locked `replace` (lines
  27-81); merging these into one atomic step only removes interleavings, so
  every behaviour of this model is a behaviour of the source;
* `signRead` — the `self.ca.read()` / `unwrap()` used for leaf signing
  (lines 106-107).

Certificates are identified by the index of the issuing caller: the upstream
backend issues a fresh certificate (fresh serial, fresh key pair) on every
`sign_intermediate` call, so certificates from distinct calls are distinct. -/

/-- Program counter of one concurrent caller. -/
inductive ThreadPC where
  | check
  | issue
  | signRead
  | finished
  deriving DecidableEq

/-- One concurrent caller: its program counter and the CA certificate it
observed when it reached leaf signing. -/
structure ThreadSt where
  pc : ThreadPC
  observed : Option Nat
  deriving DecidableEq

/-- The shared state: the `RwLock<Option<CACertificate>>` content (as the id
of the installed certificate), the number of upstream `sign_intermediate`
calls performed, and the callers. -/
structure CASysState where
  ca : Option Nat
  backendCalls : Nat
  threads : List ThreadSt
  deriving DecidableEq

/-- Execute one atomic step of caller `i`. -/
def stepThread (s : CASysState) (i : Nat) : CASysState :=
  match s.threads.get? i with
  | none => s
  | some t =>
    match t.pc with
    | .check =>
      let t1 := if s.ca.isNone then { t with pc := .issue } else { t with pc := .signRead }
      { s with threads := s.threads.set i t1 }
    | .issue =>
      { s with ca := some i, backendCalls := s.backendCalls + 1,
               threads := s.threads.set i { t with pc := .signRead } }
    | .signRead =>
      { s with threads := s.threads.set i { t with pc := .finished, observed := s.ca } }
    | .finished => s

/-- Initial state for `n` first-time callers with the CA state absent. -/
def initCASysState (n : Nat) : CASysState :=
  { ca := none, backendCalls := 0,
    threads := List.replicate n { pc := .check, observed := none } }

/-- Run the callers under a given interleaving (list of caller indices). -/
def runSchedule (n : Nat) (sched : List Nat) : CASysState :=
  sched.foldl stepThread (initCASysState n)

/-! ## The spec's reading of the already-fulfilled gate -/

/-- Modelled from the spec's words (for comparison with `alreadyIssued`, the
condition the source actually tests): "the request's status already carries a
non-empty certificate chain". -/
def spec_statusChainNonEmpty (pcr : PodCertificateRequest) : Bool :=
  match pcr.status with
  | some st =>
    match st.certificate_chain with
    | some chain => chain != ""
    | none => false
  | none => false

/-! ## Concrete fixtures used by witnesses and counterexamples -/

/-- A parseable CA certificate body. -/
def caData : CertData :=
  { subject := "CN=ca-subj", issuer := "CN=root", serial := 9, notBefore := -100,
    notAfter := 999999, publicKey := 1 }

/-- A present, valid (parseable, unexpired at `now = 0`), P-256 intermediate CA. -/
def caEx : CACertificate :=
  { certificate_pem := Pem.cert caData, key_pair := { alg := KeyAlg.p256, keyId := 3 } }

/-- An environment where every effectful step succeeds. -/
def envOk : ReconcileEnv :=
  { issueEnv := { keypair := Except.ok { alg := KeyAlg.p256, keyId := 7 },
                  paramsOk := true, serializeOk := true, pemOk := true,
                  vaultResponse := Except.ok (Pem.cert caData) },
    patchOk := true }

/-- A fresh request (`ns = demo`, `pod = worker-1`, valid SPKI,
`max_expiration_seconds = 7200`, empty status). -/
def pcrEx : PodCertificateRequest :=
  { metadata := { name := some "pcr1", namespace_ := some "demo" },
    spec := { pod_uid := "u1", pod_name := "worker-1",
              pkix_public_key := SpkiInput.valid 42,
              max_expiration_seconds := some 7200 },
    status := none }

/-- The leaf certificate `sign_certificate` produces for `pcrEx` under `caEx`
at `now = 0` with serial randomness `5`. -/
def leafEx : CertData :=
  { subject := "CN=system:pod:demo:worker-1", issuer := "CN=ca-subj", serial := 5,
    notBefore := 0, notAfter := 86400, publicKey := 42 }

/-- `pcrEx` whose status carries an empty-string certificate chain. -/
def pcrC3 : PodCertificateRequest :=
  { pcrEx with status := some { emptyStatus with certificate_chain := some "" } }

/-- A pre-existing condition record on a request's status. -/
def oldCond : Condition :=
  { last_transition_time := -5, message := "previous", observed_generation := none,
    reason := "SomethingElse", status := "False", type_ := "Old" }

/-- `pcrEx` whose status already holds the condition `oldCond` (and no
certificate chain). -/
def pcrC4 : PodCertificateRequest :=
  { pcrEx with status := some { emptyStatus with conditions := some [oldCond] } }

/-- The status `reconcile` patches for `pcrC4`. -/
def patchedC4 : PodCertificateRequestStatus := buildStatus pcrC4 leafEx 0 7200

/-- An environment where only the upstream `sign_intermediate` call fails. -/
def envVaultFail : IssueEnv :=
  { keypair := Except.ok { alg := KeyAlg.p256, keyId := 7 },
    paramsOk := true, serializeOk := true, pemOk := true,
    vaultResponse := Except.error () }

/-- `pcrEx` with `max_expiration_seconds = -1` (present and negative). -/
def pcrC7 : PodCertificateRequest :=
  { pcrEx with spec := { pcrEx.spec with max_expiration_seconds := some (-1) } }

/-- The status `reconcile` patches for `pcrEx`. -/
def patchedEx : PodCertificateRequestStatus := buildStatus pcrEx leafEx 0 7200

/-- `pcrEx` with `max_expiration_seconds` absent. -/
def pcrC9 : PodCertificateRequest :=
  { pcrEx with spec := { pcrEx.spec with max_expiration_seconds := none } }

/-- `pcrEx` with `metadata.namespace` absent. -/
def pcrC10 : PodCertificateRequest :=
  { pcrEx with metadata := { name := some "pcr1", namespace_ := none } }

/-- The leaf certificate signed for `pcrC10` (substitute namespace `default`). -/
def leafC10 : CertData :=
  { subject := "CN=system:pod:default:worker-1", issuer := "CN=ca-subj", serial := 5,
    notBefore := 0, notAfter := 86400, publicKey := 42 }

/-! ## Helper lemmas -/

theorem sysPod_ne_empty (a b : String) : ("system:pod:" ++ a ++ ":" ++ b) ≠ "" := by
  intro h
  have hlen : ("system:pod:" ++ a ++ ":" ++ b).length = 0 := by rw [h]; rfl
  simp [String.length_append] at hlen
  exact absurd hlen.1.1.1 (by decide)

theorem mkCommonName_ne_empty (pcr : PodCertificateRequest) : mkCommonName pcr ≠ "" :=
  sysPod_ne_empty _ _

/-- A status delivered by a successful patch is exactly the one `reconcile`
builds with `buildStatus`, for the request's (present) `max_expiration_seconds`. -/
theorem reconcile_patched_eq (pcr : PodCertificateRequest) (ca0 : Option CACertificate)
    (env : ReconcileEnv) (now : Int) (serialRand : Nat) (st : PodCertificateRequestStatus)
    (h : (reconcile pcr ca0 env now serialRand).patchedStatus = some st) :
    ∃ cert maxExp, pcr.spec.max_expiration_seconds = some maxExp ∧
      st = buildStatus pcr cert now maxExp := by
  unfold reconcile at h
  split at h
  · simp at h
  · unfold reconcileSign at h
    simp only [] at h
    split at h
    · simp at h
    · simp at h
    · rename_i cert hcert
      unfold reconcileAfterSign at h
      split at h
      · simp at h
      · rename_i maxExp hmax
        split at h
        · simp at h
        · split at h
          · simp at h
          · split at h
            · simp at h
            · split at h
              · simp only [Option.some.injEq] at h
                exact ⟨cert, maxExp, hmax, h.symm⟩
              · simp at h

theorem signWithState_ok_cnUsed (ca1 : Option CACertificate)
    (pcr : PodCertificateRequest) (now : Int) (serialRand : Nat) (b : Bool)
    (cert : CertData)
    (h : (signWithState ca1 pcr now serialRand b).result = RunResult.ok cert) :
    (signWithState ca1 pcr now serialRand b).cnUsed = some (mkCommonName pcr) := by
  cases ca1 with
  | none => simp [signWithState] at h
  | some c =>
    by_cases hc : c.is_expired now
    · simp [signWithState, hc] at h
    · simp [signWithState, hc]

/-- When the CA manager returns a certificate, the common name it handed the
leaf signer is `mkCommonName`. -/
theorem sign_ok_cnUsed (ca0 : Option CACertificate) (env : IssueEnv)
    (pcr : PodCertificateRequest) (now : Int) (serialRand : Nat) (cert : CertData)
    (h : (IntermediateCA.sign_certificate ca0 env pcr now serialRand).result =
      RunResult.ok cert) :
    (IntermediateCA.sign_certificate ca0 env pcr now serialRand).cnUsed =
      some (mkCommonName pcr) := by
  unfold IntermediateCA.sign_certificate at h ⊢
  cases ca0 with
  | some c => exact signWithState_ok_cnUsed _ _ _ _ _ _ h
  | none =>
    cases hres : (issue_ca_certificate env none).res with
    | error e => simp only [hres] at h; exact absurd h (by simp)
    | ok u =>
      simp only [hres] at h ⊢
      exact signWithState_ok_cnUsed _ _ _ _ _ _ h

/-! ## Claims -/

/-- Claim C1: the claim states that N concurrent first-time callers of
`IntermediateCA::sign_certificate` with the CA state absent cause exactly one
upstream sign-intermediate call and all observe the same CA certificate.  The
source uses a naive check-then-act (the read guard of the `is_none` check is
dropped before `issue_ca_certificate` runs, and no double-check happens after
taking the write lock), so two first-time callers whose absence checks both
run before either installs a certificate perform two backend calls and can
sign under different CA certificates.  This theorem exhibits such an
interleaving of two callers: two backend calls (not one), and the two callers
observe different certificates. -/
theorem C1_duplicate_issuance_race :
    (runSchedule 2 [0, 1, 0, 0, 1, 1]).backendCalls = 2 ∧
    (runSchedule 2 [0, 1, 0, 0, 1, 1]).backendCalls ≠ 1 ∧
    ((runSchedule 2 [0, 1, 0, 0, 1, 1]).threads.get? 0).map ThreadSt.observed ≠
      ((runSchedule 2 [0, 1, 0, 0, 1, 1]).threads.get? 1).map ThreadSt.observed := by
  decide

/-- Claim C2: for a request with a valid SPKI public key signed under a valid
(parseable, P-256, unexpired) CA with a present namespace, the CA manager
returns a certificate whose issuer is the CA certificate's subject, whose
validity is exactly 24 hours (86400 s) from the signing instant, and whose
subject is `CN=system:pod:<namespace>:<pod_name>`. -/
theorem C2_leaf_certificate_shape (ca : CACertificate) (cd : CertData)
    (env : IssueEnv) (req : PodCertificateRequest) (now : Int) (serialRand : Nat)
    (kid : Nat) (ns : String)
    (hpem : ca.certificate_pem = Pem.cert cd)
    (hkey : ca.key_pair.alg = KeyAlg.p256)
    (hspki : req.spec.pkix_public_key = SpkiInput.valid kid)
    (hns : req.metadata.namespace_ = some ns)
    (hexp : ca.is_expired now = false) :
    (IntermediateCA.sign_certificate (some ca) env req now serialRand).result =
      RunResult.ok
        { subject := "CN=" ++ ("system:pod:" ++ ns ++ ":" ++ req.spec.pod_name),
          issuer := cd.subject,
          serial := serialRand % 2 ^ 64,
          notBefore := now, notAfter := now + 86400, publicKey := kid } := by
  unfold IntermediateCA.sign_certificate signWithState
  simp only [hexp, Bool.false_eq_true, if_false]
  unfold sign_certificate mkCommonName
  simp [hspki, hpem, parseSpki, parseCertPem, hkey, hns, sysPod_ne_empty]

theorem C2_witness :
    caEx.certificate_pem = Pem.cert caData ∧
    caEx.key_pair.alg = KeyAlg.p256 ∧
    pcrEx.spec.pkix_public_key = SpkiInput.valid 42 ∧
    pcrEx.metadata.namespace_ = some "demo" ∧
    caEx.is_expired 0 = false ∧
    (IntermediateCA.sign_certificate (some caEx) envOk.issueEnv pcrEx 0 5).result =
      RunResult.ok
        { subject := "CN=" ++ ("system:pod:" ++ "demo" ++ ":" ++ pcrEx.spec.pod_name),
          issuer := caData.subject, serial := 5 % 2 ^ 64,
          notBefore := 0, notAfter := 0 + 86400, publicKey := 42 } :=
  ⟨rfl, rfl, rfl, rfl, by decide,
   C2_leaf_certificate_shape caEx caData envOk.issueEnv pcrEx 0 5 42 "demo"
     rfl rfl rfl rfl (by decide)⟩

/-- Claim C3 (amended): `reconcile` does nothing (no CA manager or backend
call, no patch, no persisted status, CA state unchanged) and requeues in
300 s exactly when the status's `certificate_chain` field is present —
whether or not the chain string is empty.  (The claim as stated, with
"non-empty", fails: see the counterexample.) -/
theorem C3_already_issued_iff (pcr : PodCertificateRequest) (ca0 : Option CACertificate)
    (env : ReconcileEnv) (now : Int) (serialRand : Nat) :
    ((reconcile pcr ca0 env now serialRand).caManagerCalled = false ∧
     (reconcile pcr ca0 env now serialRand).backendCalled = false ∧
     (reconcile pcr ca0 env now serialRand).patchAttempted = false ∧
     (reconcile pcr ca0 env now serialRand).patchedStatus = none ∧
     (reconcile pcr ca0 env now serialRand).caAfter = ca0 ∧
     (reconcile pcr ca0 env now serialRand).result = RunResult.ok 300)
    ↔ (∃ st chain, pcr.status = some st ∧ st.certificate_chain = some chain) := by
  unfold reconcile alreadyIssued
  cases hs : pcr.status with
  | none => simp [reconcileSign]
  | some st =>
    cases hc : st.certificate_chain with
    | none => simp [hc, reconcileSign]
    | some chain => simp [hc]

/-- Claim C3 counterexample: `pcrC3` carries `certificate_chain = Some("")`
— an empty chain, so the claim's "non-empty" gate is false — yet `reconcile`
does nothing and requeues in 300 s. -/
theorem C3_counterexample :
    ¬ (((reconcile pcrC3 (some caEx) envOk 0 5).caManagerCalled = false ∧
        (reconcile pcrC3 (some caEx) envOk 0 5).backendCalled = false ∧
        (reconcile pcrC3 (some caEx) envOk 0 5).patchAttempted = false ∧
        (reconcile pcrC3 (some caEx) envOk 0 5).result = RunResult.ok 300)
       ↔ spec_statusChainNonEmpty pcrC3 = true) := by
  decide

/-- Claim C4 (amended): on successful issuance, `reconcile` replaces the
request's condition list with exactly one condition record (type `Issued`,
status `True`, reason `CertificateIssuedSuccessfully`, message "Certificate
issued successfully", transition time = now), discarding any condition
records already present.  (The claim as stated — append, leaving existing
records intact — fails: see the counterexample.) -/
theorem C4_conditions_replaced (pcr : PodCertificateRequest) (ca0 : Option CACertificate)
    (env : ReconcileEnv) (now : Int) (serialRand : Nat) (st : PodCertificateRequestStatus)
    (h : (reconcile pcr ca0 env now serialRand).patchedStatus = some st) :
    st.conditions = some [issuedCondition now] ∧
    (issuedCondition now).type_ = "Issued" ∧
    (issuedCondition now).status = "True" ∧
    (issuedCondition now).reason = "CertificateIssuedSuccessfully" ∧
    (issuedCondition now).message = "Certificate issued successfully" ∧
    (issuedCondition now).last_transition_time = now := by
  obtain ⟨cert, maxExp, hmax, rfl⟩ := reconcile_patched_eq _ _ _ _ _ _ h
  exact ⟨rfl, rfl, rfl, rfl, rfl, rfl⟩

/-- Claim C4 counterexample: `pcrC4`'s status already holds `oldCond`; after
a successful reconciliation the patched conditions list is exactly the single
fresh `Issued` record, and `oldCond` is not in it. -/
theorem C4_counterexample :
    pcrC4.status = some { emptyStatus with conditions := some [oldCond] } ∧
    ((reconcile pcrC4 (some caEx) envOk 0 5).patchedStatus.bind
       fun s => s.conditions) = some [issuedCondition 0] ∧
    oldCond ∉ [issuedCondition 0] := by
  decide

theorem C4_witness :
    (reconcile pcrC4 (some caEx) envOk 0 5).patchedStatus = some patchedC4 ∧
    patchedC4.conditions = some [issuedCondition 0] :=
  ⟨by decide, (C4_conditions_replaced pcrC4 (some caEx) envOk 0 5 patchedC4 (by decide)).1⟩

/-- Claim C5: if any step of bootstrap fails (key generation, CSR
construction or encoding, or the upstream sign-intermediate call), the
returned error is `VaultRequestFailed` or `CSRCreate` and the CA state is
left unchanged; the state is replaced only when every step succeeded. -/
theorem C5_bootstrap_failure_preserves_state (env : IssueEnv)
    (ca0 : Option CACertificate) (e : Error)
    (h : (issue_ca_certificate env ca0).res = Except.error e) :
    (issue_ca_certificate env ca0).ca = ca0 ∧
    (e = Error.VaultRequestFailed ∨ e = Error.CSRCreate) := by
  obtain ⟨kp, po, so, pe, vr⟩ := env
  unfold issue_ca_certificate at h ⊢
  cases kp <;> cases po <;> cases so <;> cases pe <;> cases vr <;> simp_all

theorem C5_witness :
    (issue_ca_certificate envVaultFail none).res = Except.error Error.VaultRequestFailed ∧
    ((issue_ca_certificate envVaultFail none).ca = none ∧
     (Error.VaultRequestFailed = Error.VaultRequestFailed ∨
      Error.VaultRequestFailed = Error.CSRCreate)) :=
  ⟨by decide,
   C5_bootstrap_failure_preserves_state envVaultFail none Error.VaultRequestFailed
     (by decide)⟩

/-- Claim C6: `is_expired` is true exactly when the stored certificate PEM
fails to parse (fail-closed) or the parsed certificate's `not_after` is
strictly earlier than now; false otherwise. -/
theorem C6_is_expired_iff (ca : CACertificate) (now : Int) :
    ca.is_expired now = true ↔
      (parseCertPem ca.certificate_pem = none ∨
       ∃ c, parseCertPem ca.certificate_pem = some c ∧ c.notAfter < now) := by
  unfold CACertificate.is_expired
  cases h : parseCertPem ca.certificate_pem with
  | none => simp
  | some c => simp [h]

/-- Claim C7 (amended): for a request with a present, non-negative
`max_expiration_seconds` whose reconciliation patches a status, the patched
`begin_refresh_at` is `now + max_expiration_seconds - 3600` seconds; in
particular 7200 gives `now + 3600`.  (As stated — for every present value —
the claim fails for negative values: the `i32 as u64` cast sign-extends them
past the `TimeDelta::from_std` bound and the chrono addition panics, so no
`begin_refresh_at` is computed at all: see the counterexample.) -/
theorem C7_begin_refresh_at (pcr : PodCertificateRequest) (ca0 : Option CACertificate)
    (env : ReconcileEnv) (now : Int) (serialRand : Nat) (maxExp : Int)
    (st : PodCertificateRequestStatus)
    (hmax : pcr.spec.max_expiration_seconds = some maxExp)
    (hnonneg : 0 ≤ maxExp) (hrange : maxExp < 2 ^ 31)
    (h : (reconcile pcr ca0 env now serialRand).patchedStatus = some st) :
    st.begin_refresh_at = some (now + maxExp - 3600) := by
  obtain ⟨cert, maxExp', hmax', rfl⟩ := reconcile_patched_eq _ _ _ _ _ _ h
  rw [hmax] at hmax'
  injection hmax' with he
  subst he
  have hcast : i32_as_u64 maxExp = maxExp := by unfold i32_as_u64; omega
  show some (now + i32_as_u64 maxExp - 3600) = some (now + maxExp - 3600)
  rw [hcast]

/-- Claim C7 counterexample: with `max_expiration_seconds = Some(-1)` the
reconciliation does not set `begin_refresh_at` to `now + (-1) - 3600` — it
panics: the `i32 as u64` cast wraps `-1` to `2^64 - 1` seconds, beyond the
`TimeDelta::from_std` bound, so chrono's `+` panics and nothing is patched. -/
theorem C7_counterexample :
    pcrC7.spec.max_expiration_seconds = some (-1) ∧
    (reconcile pcrC7 (some caEx) envOk 0 5).result =
      RunResult.panics durationOverflowMsg ∧
    (reconcile pcrC7 (some caEx) envOk 0 5).patchedStatus = none ∧
    ¬ (((reconcile pcrC7 (some caEx) envOk 0 5).patchedStatus.bind
         fun s => s.begin_refresh_at) = some (0 + (-1) - 3600)) := by
  decide

theorem C7_witness :
    pcrEx.spec.max_expiration_seconds = some 7200 ∧ (0 : Int) ≤ 7200 ∧
    (7200 : Int) < 2 ^ 31 ∧
    (reconcile pcrEx (some caEx) envOk 0 5).patchedStatus = some patchedEx ∧
    patchedEx.begin_refresh_at = some (0 + 7200 - 3600) :=
  ⟨rfl, by decide, by decide, by decide,
   C7_begin_refresh_at pcrEx (some caEx) envOk 0 5 7200 patchedEx rfl (by decide)
     (by decide) (by decide)⟩

/-- Claim C8 (amended): for a CA key pair that is not P-256 (with otherwise
valid inputs), `sign_certificate` fails with
`Error::Signing("Key conversion failed: ...")` — not with an
`UnsupportedKeyType` error, which does not exist in the source's error enum
(see the counterexample). -/
theorem C8_non_p256_signing_error (pubkey : SpkiInput) (ca_pem : Pem) (kp : KeyPair)
    (cn : String) (now : Int) (serialRand : Nat) (kid : Nat) (cd : CertData)
    (hspki : pubkey = SpkiInput.valid kid)
    (hpem : ca_pem = Pem.cert cd)
    (hkey : kp.alg ≠ KeyAlg.p256) :
    sign_certificate pubkey ca_pem kp cn now serialRand =
      Except.error (Error.Signing "Key conversion failed") := by
  have hother : kp.alg = KeyAlg.other := by
    cases hx : kp.alg
    · exact absurd hx hkey
    · rfl
  subst hspki hpem
  unfold sign_certificate
  simp [parseSpki, parseCertPem, hother]

/-- Claim C8 counterexample: a non-P-256 CA key pair makes `sign_certificate`
fail with a `Signing` error, whose variant name is not `UnsupportedKeyType`. -/
theorem C8_counterexample :
    sign_certificate (SpkiInput.valid 1) (Pem.cert caData)
      { alg := KeyAlg.other, keyId := 0 } "system:pod:demo:worker-1" 0 5 =
      Except.error (Error.Signing "Key conversion failed") ∧
    errorName (Error.Signing "Key conversion failed") ≠ "UnsupportedKeyType" := by
  decide

theorem C8_witness :
    ({ alg := KeyAlg.other, keyId := 2 } : KeyPair).alg ≠ KeyAlg.p256 ∧
    sign_certificate (SpkiInput.valid 8) (Pem.cert caData)
      { alg := KeyAlg.other, keyId := 2 } "system:pod:a:b" 7 9 =
      Except.error (Error.Signing "Key conversion failed") :=
  ⟨by decide,
   C8_non_p256_signing_error (SpkiInput.valid 8) (Pem.cert caData)
     { alg := KeyAlg.other, keyId := 2 } "system:pod:a:b" 7 9 8 caData rfl rfl
     (by decide)⟩

/-- Claim C9: a request without `max_expiration_seconds` whose signing
succeeds makes `reconcile` panic (the `unwrap()` on the `None` option) rather
than return an `Error` value to the driver's failure policy. -/
theorem C9_missing_max_expiration_panics (pcr : PodCertificateRequest)
    (ca0 : Option CACertificate) (env : ReconcileEnv) (now : Int) (serialRand : Nat)
    (cert : CertData)
    (halready : alreadyIssued pcr = false)
    (hmax : pcr.spec.max_expiration_seconds = none)
    (hsign : (IntermediateCA.sign_certificate ca0 env.issueEnv pcr now serialRand).result =
      RunResult.ok cert) :
    (reconcile pcr ca0 env now serialRand).result = RunResult.panics unwrapNoneMsg ∧
    ∀ e : Error, (reconcile pcr ca0 env now serialRand).result ≠ RunResult.err e := by
  unfold reconcile
  simp [halready, reconcileSign, hsign, reconcileAfterSign, hmax]

theorem C9_witness :
    alreadyIssued pcrC9 = false ∧
    pcrC9.spec.max_expiration_seconds = none ∧
    (IntermediateCA.sign_certificate (some caEx) envOk.issueEnv pcrC9 0 5).result =
      RunResult.ok leafEx ∧
    (reconcile pcrC9 (some caEx) envOk 0 5).result = RunResult.panics unwrapNoneMsg :=
  ⟨rfl, rfl, by decide,
   (C9_missing_max_expiration_panics pcrC9 (some caEx) envOk 0 5 leafEx rfl rfl
     (by decide)).1⟩

/-- Claim C10: a request with no `metadata.namespace` still goes through the
CA manager, signing a leaf whose common name substitutes the namespace
`default` (`system:pod:default:<pod_name>`), and only afterwards fails with
`MissingObjectKey(".metadata.namespace")`, before any status patch is
attempted.  The hypotheses (chain absent, signing succeeded,
`max_expiration_seconds` present and non-negative) are the claim's implicit
preconditions for reaching that failure: without them reconciliation
short-circuits, fails, or panics earlier in the `renew_at` computation
(claims C3, C5, C7 and C9 cover those paths). -/
theorem C10_missing_namespace_signs_then_fails (pcr : PodCertificateRequest)
    (ca0 : Option CACertificate) (env : ReconcileEnv) (now : Int) (serialRand : Nat)
    (cert : CertData) (maxExp : Int)
    (halready : alreadyIssued pcr = false)
    (hns : pcr.metadata.namespace_ = none)
    (hmax : pcr.spec.max_expiration_seconds = some maxExp)
    (hnonneg : 0 ≤ maxExp) (hrange : maxExp < 2 ^ 31)
    (hsign : (IntermediateCA.sign_certificate ca0 env.issueEnv pcr now serialRand).result =
      RunResult.ok cert) :
    (reconcile pcr ca0 env now serialRand).caManagerCalled = true ∧
    (reconcile pcr ca0 env now serialRand).cnUsed =
      some ("system:pod:default:" ++ pcr.spec.pod_name) ∧
    (reconcile pcr ca0 env now serialRand).result =
      RunResult.err (Error.MissingObjectKey ".metadata.namespace") ∧
    (reconcile pcr ca0 env now serialRand).patchAttempted = false := by
  have hcn := sign_ok_cnUsed ca0 env.issueEnv pcr now serialRand cert hsign
  have hpre : mkCommonName pcr = "system:pod:default:" ++ pcr.spec.pod_name := by
    unfold mkCommonName
    rw [hns]
    rfl
  have hguard : ¬ chronoMaxSeconds < i32_as_u64 maxExp := by
    unfold chronoMaxSeconds i32_as_u64
    omega
  unfold reconcile
  simp [halready, reconcileSign, hsign, reconcileAfterSign, hmax, hguard, hns, hcn, hpre]

theorem C10_witness :
    alreadyIssued pcrC10 = false ∧
    pcrC10.metadata.namespace_ = none ∧
    pcrC10.spec.max_expiration_seconds = some 7200 ∧
    (0 : Int) ≤ 7200 ∧ (7200 : Int) < 2 ^ 31 ∧
    (IntermediateCA.sign_certificate (some caEx) envOk.issueEnv pcrC10 0 5).result =
      RunResult.ok leafC10 ∧
    ((reconcile pcrC10 (some caEx) envOk 0 5).caManagerCalled = true ∧
     (reconcile pcrC10 (some caEx) envOk 0 5).cnUsed =
       some ("system:pod:default:" ++ pcrC10.spec.pod_name) ∧
     (reconcile pcrC10 (some caEx) envOk 0 5).result =
       RunResult.err (Error.MissingObjectKey ".metadata.namespace") ∧
     (reconcile pcrC10 (some caEx) envOk 0 5).patchAttempted = false) :=
  ⟨rfl, rfl, rfl, by decide, by decide, by decide,
   C10_missing_namespace_signs_then_fails pcrC10 (some caEx) envOk 0 5 leafC10 7200
     rfl rfl rfl (by decide) (by decide) (by decide)⟩

end OpenbaoPki
